import Mathlib

/-!
Verification development for the conversational-turn orchestrator
(`core/cognitive_cycle.py`, `core/skill_system.py`, `core/analyzer.py`,
`modules/online_brain.py`).

The Python sources are shallowly embedded: pure functions become Lean
functions, the orchestrator's mutable state becomes an explicit state
record threaded through `runCycle`, Python `float` arithmetic is embedded
as exact rational arithmetic (`ℚ`), Python `int` as `ℕ`/`ℤ`, and a raised
exception as `Except`.  The modules `core/emotion_engine.py` and
`core/safety_system.py` are imported by `cognitive_cycle.py` but are not
part of the source tree, so they are modelled from the specification
(section 4.2 and the SafetyGate contract of section 6); network- and
API-dependent collaborator results (`OnlineBrain.answer`, the OpenAI
chat call) are modelled as function parameters.
-/

/-! ### String helpers mirroring the Python string primitives -/

/-- `listStarts needle hay`: `hay` begins with `needle` (on character lists). -/
def listStarts : List Char → List Char → Bool
  | [], _ => true
  | _ :: _, [] => false
  | c :: cs, d :: ds => c = d && listStarts cs ds

/-- Occurrence of `needle` anywhere in the character list (Python `in`). -/
def containsChars (needle : List Char) : List Char → Bool
  | [] => needle.isEmpty
  | d :: ds => listStarts needle (d :: ds) || containsChars needle ds

/-- Python `needle in hay` on strings. -/
def pyIn (needle hay : String) : Bool := containsChars needle.data hay.data

/-- Python `hay.startswith(pre)`. -/
def pyStartswith (hay pre : String) : Bool := listStarts pre.data hay.data

/-- Python `str.lower` restricted to the alphabets the sources use:
ASCII `A`-`Z` and Cyrillic `А`-`Я`, `Ё`.  (Full Unicode case mapping is
not modelled; every keyword tested by the sources is ASCII or Cyrillic.) -/
def pyLowerChar (c : Char) : Char :=
  if 'A' ≤ c ∧ c ≤ 'Z' then Char.ofNat (c.toNat + 32)
  else if 0x410 ≤ c.toNat ∧ c.toNat ≤ 0x42F then Char.ofNat (c.toNat + 32)
  else if c.toNat = 0x401 then Char.ofNat 0x451
  else c

/-- Python `str.lower` on a string. -/
def pyLower (s : String) : String := ⟨s.data.map pyLowerChar⟩

/-- Python `str.strip()` (whitespace at both ends removed). -/
def pyStrip (s : String) : String :=
  ⟨((s.data.dropWhile Char.isWhitespace).reverse.dropWhile Char.isWhitespace).reverse⟩

/-! ### Skill system (`core/skill_system.py`) -/

/-- `SkillLevel` enumeration (`skill_system.py`, lines 9-14). -/
inductive SkillLevel where
  | NOVICE | BEGINNER | INTERMEDIATE | ADVANCED | EXPERT
  deriving DecidableEq, Repr

/-- Position of a level in `list(SkillLevel)` (used by `get_level`). -/
def SkillLevel.index : SkillLevel → ℕ
  | .NOVICE => 0 | .BEGINNER => 1 | .INTERMEDIATE => 2 | .ADVANCED => 3 | .EXPERT => 4

/-- The `Skill` dataclass (`skill_system.py`, lines 17-25). -/
structure Skill where
  name : String
  category : String
  experience : ℚ
  level : SkillLevel
  uses : ℕ
  tags : List String
  last_used_cycle : ℕ
  deriving DecidableEq, Repr

/-- A fresh skill, as built by `Skill(name=..., category=...)` with the
dataclass defaults. -/
def mkSkill (name category : String) (tags : List String) : Skill :=
  { name := name, category := category, experience := 0, level := .NOVICE,
    uses := 0, tags := tags, last_used_cycle := 0 }

/-- `SkillSystem` state: the `skills` dict is embedded as an insertion-ordered
association list (Python dict keys are unique and iterate in insertion
order), plus `total_experience` and `current_cycle`. -/
structure SkillSystem where
  skills : List Skill
  total_experience : ℚ
  current_cycle : ℕ
  deriving Repr

/-- `_update_level` (`skill_system.py`, lines 74-78): scan the levels from
`EXPERT` down and take the first whose threshold is met; with negative
experience no threshold is met and the stored level is left unchanged. -/
def updateLevel (old : SkillLevel) (e : ℚ) : SkillLevel :=
  if 10000 ≤ e then .EXPERT
  else if 2000 ≤ e then .ADVANCED
  else if 500 ≤ e then .INTERMEDIATE
  else if 100 ≤ e then .BEGINNER
  else if 0 ≤ e then .NOVICE
  else old

/-- `_init_default_skills` (`skill_system.py`, lines 43-52). -/
def skillInit : SkillSystem :=
  { skills :=
      [ mkSkill "приветствие" "общение" ["social"],
        mkSkill "поиск_в_интернете" "технические" ["web", "research"],
        mkSkill "эмпатия" "общение" ["emotional"],
        mkSkill "анализ" "технические" ["logic"],
        mkSkill "креативность" "творческие" ["creative"] ],
    total_experience := 0, current_cycle := 0 }

/-- Replace the first list entry named `name` (a Python dict holds one entry
per key, so `self.skills[name] = ...` touches exactly one entry). -/
def updateFirst (l : List Skill) (name : String) (f : Skill → Skill) : List Skill :=
  match l with
  | [] => []
  | sk :: rest => if sk.name = name then f sk :: rest else sk :: updateFirst rest name f

/-- Lookup by name, mirroring `self.skills.get(name)` / `self.skills[name]`. -/
def findSkill (l : List Skill) (name : String) : Option Skill :=
  l.find? (fun sk => sk.name = name)

/-- `use_skill` (`skill_system.py`, lines 56-72).  Grants
`base_xp * min(1 + 0.01*uses, 2.0)` XP, bumps `uses`, stamps
`last_used_cycle`, adds the same XP to `total_experience`, and recomputes
the level.  A missing name is first created as `Skill(name, "общение")`. -/
def useSkill (s : SkillSystem) (name : String) (success : Bool) (cycle : Option ℕ) :
    SkillSystem :=
  let skills0 := if (findSkill s.skills name).isSome then s.skills
                 else s.skills ++ [mkSkill name "общение" []]
  match findSkill skills0 name with
  | none => s
  | some sk =>
    let base_xp : ℚ := if success then 10 else 3
    let bonus : ℚ := 1 + (sk.uses : ℚ) * (1 / 100)
    let xp := base_xp * min bonus 2
    let sk' : Skill :=
      { sk with experience := sk.experience + xp, uses := sk.uses + 1,
                last_used_cycle := cycle.getD s.current_cycle }
    let sk' := { sk' with level := updateLevel sk'.level sk'.experience }
    { s with skills := updateFirst skills0 name (fun _ => sk'),
             total_experience := s.total_experience + xp }

/-- The per-skill body of the `tick` loop (`skill_system.py`, lines 95-105):
add the uniform passive share, then, if the skill has been dormant for more
than 50 cycles and has positive experience, subtract the decay term
(clamped at zero), and recompute the level.  `newCycle` is the already
advanced `self.current_cycle`. -/
def tickSkill (newCycle : ℕ) (numSkills : ℕ) (n : ℕ) (sk : Skill) : Skill :=
  let e1 := sk.experience + ((1 / 2 : ℚ) * n) / (max numSkills 1 : ℕ)
  let since : ℤ := (newCycle : ℤ) - (sk.last_used_cycle : ℤ)
  let e2 := if 50 < since ∧ 0 < e1 then max 0 (e1 - e1 * (1 / 1000) * n) else e1
  { sk with experience := e2, level := updateLevel sk.level e2 }

/-- `tick` (`skill_system.py`, lines 82-105): advance `current_cycle` by `n`,
add `0.5*n` to `total_experience`, and run the per-skill update. -/
def tick (s : SkillSystem) (n : ℕ) : SkillSystem :=
  let c := s.current_cycle + n
  { skills := s.skills.map (tickSkill c s.skills.length n),
    total_experience := s.total_experience + (1 / 2 : ℚ) * n,
    current_cycle := c }

/-- `get_level` (`skill_system.py`, lines 112-118): numeric level index,
`0` for an unknown skill. -/
def getLevel (s : SkillSystem) (name : String) : ℕ :=
  match findSkill s.skills name with
  | none => 0
  | some sk => sk.level.index

/-- `get_total_level` (`skill_system.py`, lines 120-122):
`int(log10(total + 1) * 2) + 1`.  For the non-negative totals the system
produces, `int` truncation is the floor, and
`⌊2·log10 x⌋ = ⌊log10 (x²)⌋ = Int.log 10 (x²)`, which is how the value is
computed here so that the definition stays executable; the theorem for C9
proves this equal to the floor-of-logarithm form. -/
def getTotalLevel (s : SkillSystem) : ℤ :=
  Int.log 10 ((s.total_experience + 1) ^ 2) + 1

/-- One call against the skill ledger, for stating "any sequence of
`use_skill` and `tick` calls". -/
inductive SkillOp where
  | use (name : String) (success : Bool) (cycle : Option ℕ)
  | tick (n : ℕ)

/-- Apply one ledger call. -/
def SkillSystem.applyOp (s : SkillSystem) : SkillOp → SkillSystem
  | .use name success cycle => useSkill s name success cycle
  | .tick n => tick s n

/-- Apply a sequence of ledger calls. -/
def applySkillOps (s : SkillSystem) (ops : List SkillOp) : SkillSystem :=
  ops.foldl SkillSystem.applyOp s

/-- Experience currently recorded under `name` (`0` when absent). -/
def experienceOf (s : SkillSystem) (name : String) : ℚ :=
  ((findSkill s.skills name).map Skill.experience).getD 0

/-- Use count currently recorded under `name` (`0` when absent). -/
def usesOf (s : SkillSystem) (name : String) : ℕ :=
  ((findSkill s.skills name).map Skill.uses).getD 0

/-- Sum of the per-skill experience values. -/
def sumExp (l : List Skill) : ℚ := (l.map Skill.experience).sum

/-! ### Affect engine, modelled from the spec

`core/emotion_engine.py` is imported by `cognitive_cycle.py` but is not in
the source tree. -/

/-- Modelled from the spec: the named emotion kinds of section 4.2 that the
orchestrator's stimulus table uses (`core/emotion_engine.py` is missing
from the sources). -/
inductive EmotionType where
  | joy | sadness | anger | interest
  deriving DecidableEq, Repr

/-- Modelled from the spec: the `value` string of each emotion enum member
(the concrete Russian labels are not recorded anywhere in the sources;
no claim depends on them). -/
def EmotionType.value : EmotionType → String
  | .joy => "радость"
  | .sadness => "грусть"
  | .anger => "злость"
  | .interest => "интерес"

/-- Modelled from the spec: affect state of section 4.2 — one magnitude per
named emotion plus the pleasure/arousal/dominance vector
(`core/emotion_engine.py` is missing from the sources). -/
structure EmotionEngine where
  joy : ℚ
  sadness : ℚ
  anger : ℚ
  interest : ℚ
  pleasure : ℚ
  arousal : ℚ
  dominance : ℚ
  deriving DecidableEq, Repr

/-- Modelled from the spec: the floor value every magnitude stays above
(numeric value unspecified there; no claim depends on it).  Taking the
floor to be zero is what makes the spec's "neutral value if all are at
floor — avoids division by zero" guard meaningful. -/
def emotionFloor : ℚ := 0

/-- Modelled from the spec: the fixed decay fraction (numeric value
unspecified there; no claim depends on it). -/
def emotionDecayRate : ℚ := 1 / 10

/-- Modelled from the spec: initial affect state, all magnitudes at floor. -/
def emotionInit : EmotionEngine :=
  { joy := emotionFloor, sadness := emotionFloor, anger := emotionFloor,
    interest := emotionFloor, pleasure := 0, arousal := 0, dominance := 0 }

/-- Modelled from the spec: `apply_stimulus(emotion, weight)` raises that
magnitude by `weight` and nudges the PAD vector by the per-emotion
signature of section 4.2 (joy → +pleasure; anger → −pleasure, +arousal,
+dominance; sadness → −pleasure, −arousal; interest → +arousal). -/
def applyStimulus (e : EmotionEngine) (k : EmotionType) (w : ℚ) : EmotionEngine :=
  match k with
  | .joy => { e with joy := e.joy + w, pleasure := e.pleasure + w }
  | .sadness => { e with sadness := e.sadness + w, pleasure := e.pleasure - w,
                         arousal := e.arousal - w }
  | .anger => { e with anger := e.anger + w, pleasure := e.pleasure - w,
                       arousal := e.arousal + w, dominance := e.dominance + w }
  | .interest => { e with interest := e.interest + w, arousal := e.arousal + w }

/-- Modelled from the spec: `decay()` pulls each magnitude a fixed fraction
toward its floor. -/
def emotionDecay (e : EmotionEngine) : EmotionEngine :=
  let d := fun m => m - emotionDecayRate * (m - emotionFloor)
  { e with joy := d e.joy, sadness := d e.sadness, anger := d e.anger,
           interest := d e.interest }

/-- Modelled from the spec: `get_dominant_emotion()` returns the emotion of
largest magnitude with its share of the total magnitude, or a neutral
confidence when all magnitudes are at floor. -/
def dominantEmotion (e : EmotionEngine) : EmotionType × ℚ :=
  let best : EmotionType :=
    if e.sadness ≤ e.joy ∧ e.anger ≤ e.joy ∧ e.interest ≤ e.joy then .joy
    else if e.anger ≤ e.sadness ∧ e.interest ≤ e.sadness then .sadness
    else if e.interest ≤ e.anger then .anger
    else .interest
  let mag : ℚ :=
    match best with
    | .joy => e.joy
    | .sadness => e.sadness
    | .anger => e.anger
    | .interest => e.interest
  let total := e.joy + e.sadness + e.anger + e.interest
  if e.joy = emotionFloor ∧ e.sadness = emotionFloor ∧ e.anger = emotionFloor ∧
      e.interest = emotionFloor then
    (best, 0)
  else (best, mag / total)

/-! ### Orchestrator data model (`core/cognitive_cycle.py`) -/

/-- A working-memory entry `{"role": ..., "content": ...}`
(`cognitive_cycle.py`, line 71). -/
structure WMEntry where
  role : String
  content : String
  deriving DecidableEq, Repr

/-- An episode `{"input", "output", "context", "retrieved", "intent",
"goals"}` (`cognitive_cycle.py`, lines 269-276); `retrieved` nests earlier
episodes, hence the inductive. -/
inductive Episode where
  | mk (input : String) (output : String) (context : List WMEntry)
       (retrieved : List Episode) (intent : String) (goals : List String)

/-- The `input` field of an episode. -/
def Episode.input : Episode → String
  | .mk i _ _ _ _ _ => i

/-- The `output` field of an episode. -/
def Episode.output : Episode → String
  | .mk _ o _ _ _ _ => o

/-- The user profile (`cognitive_cycle.py`, lines 29-35); `topics` is the
insertion-ordered dict of topic counts. -/
structure UserProfile where
  name : Option String
  likes : List String
  dislikes : List String
  style : String
  topics : List (String × ℕ)
  deriving DecidableEq, Repr

/-- Initial profile (`cognitive_cycle.py`, lines 29-35). -/
def profileInit : UserProfile :=
  { name := none, likes := [], dislikes := [], style := "friendly", topics := [] }

/-- The orchestrator's own mutable state (`cognitive_cycle.py`,
lines 15-42).  `client` records whether the optional OpenAI client was
constructed. -/
structure CognitiveCycle where
  emotion : EmotionEngine
  skills : SkillSystem
  memory : List Episode
  working_memory : List WMEntry
  cycle_count : ℕ
  client : Bool
  user_profile : UserProfile

/-- `CognitiveCycle.__init__`. -/
def initCycle (client : Bool) : CognitiveCycle :=
  { emotion := emotionInit, skills := skillInit, memory := [], working_memory := [],
    cycle_count := 0, client := client, user_profile := profileInit }

/-- External collaborators, passed as functions:
`safetyCheck` is modelled from the spec (section 6 SafetyGate contract;
`core/safety_system.py` is missing from the sources), `onlineAnswer`
stands for the network-dependent `OnlineBrain.answer`, and `llmRespond`
for the OpenAI chat call (its `except` branch's apology string is one of
the values the parameter may return). -/
structure Collab where
  safetyCheck : String → Bool × String
  onlineAnswer : String → String
  llmRespond : List WMEntry → String

/-- A raised Python exception, as far as the claims need it. -/
inductive PyErr where
  | attributeError (name : String)
  deriving DecidableEq, Repr

/-- Append then truncate to the most recent `cap` entries
(`cognitive_cycle.py`, lines 70-73 with `cap = 20` and 277-279 with
`cap = 100`; `xs[-cap:]` keeps the suffix). -/
def pushBounded (cap : ℕ) (xs : List α) (x : α) : List α :=
  let ys := xs ++ [x]
  if cap < ys.length then ys.drop (ys.length - cap) else ys

/-- Python `xs[-n:]` for `n > 0`. -/
def takeLast (n : ℕ) (xs : List α) : List α := xs.drop (xs.length - n)

/-! ### Analyzer (`core/analyzer.py`) -/

/-- Characters matched by the keyword class `[а-яёa-z]`. -/
def isKwChar (c : Char) : Bool :=
  ('a' ≤ c ∧ c ≤ 'z') ∨ (0x430 ≤ c.toNat ∧ c.toNat ≤ 0x44F) ∨ c.toNat = 0x451

/-- Maximal runs of keyword characters (`re.findall(r"[а-яёa-z]+", ...)`),
with an accumulator for the run currently being read (stored reversed). -/
def tokensGo : List Char → List Char → List (List Char)
  | [], acc => if acc.isEmpty then [] else [acc.reverse]
  | c :: cs, acc =>
    if isKwChar c then tokensGo cs (c :: acc)
    else if acc.isEmpty then tokensGo cs []
    else acc.reverse :: tokensGo cs []

/-- The stop-word set of `_extract_keywords` (`analyzer.py`, lines 56-61). -/
def stopWords : List String :=
  ["и", "в", "на", "с", "по", "для", "что", "как", "это", "то",
   "а", "но", "или", "если", "же", "бы", "ли", "не", "ни",
   "я", "ты", "он", "она", "мы", "вы", "они", "мне", "тебе",
   "его", "её", "их", "нас", "вас", "у", "к", "от", "до", "из"]

/-- `_extract_keywords` (`analyzer.py`, lines 53-63). -/
def extractKeywords (t : String) : List String :=
  ((tokensGo (pyLower t).data []).map (fun l => (⟨l⟩ : String))).filter
    (fun w => w ∉ stopWords ∧ 2 < w.length)

/-- Digit run to a number (`int(...)` on a `(\d+)` capture). -/
def digitsToNat (l : List Char) : ℕ :=
  l.foldl (fun n c => 10 * n + (c.toNat - 48)) 0

/-- Match `(\d+)\s*([+\-*/])\s*(\d+)` anchored at this position.  The digit,
whitespace and operator character classes are pairwise disjoint, so the
greedy matching below is exactly the regex semantics (no backtracking can
succeed where it fails). -/
def mathCoreAt (l : List Char) : Option (ℕ × Char × ℕ) :=
  let d1 := l.takeWhile Char.isDigit
  if d1.isEmpty then none
  else
    match (l.dropWhile Char.isDigit).dropWhile Char.isWhitespace with
    | [] => none
    | op :: r =>
      if op = '+' ∨ op = '-' ∨ op = '*' ∨ op = '/' then
        let d2 := (r.dropWhile Char.isWhitespace).takeWhile Char.isDigit
        if d2.isEmpty then none else some (digitsToNat d1, op, digitsToNat d2)
      else none

/-- `re.search` of the analyzer's math pattern
`(?:сколько|чему равно|посчитай)?\s*(\d+)\s*([+\-*/])\s*(\d+)`
(`analyzer.py`, line 14).  The captures of the leftmost full match always
equal the leftmost occurrence of the digits-operator-digits core: the
optional prefix and `\s*` contain no digit, so a full match starting
before the first core occurrence would have to cover that core's leading
digit with literal or whitespace characters, which is impossible.  Hence
the search scans for the first position where the core matches. -/
def mathSearch : List Char → Option (ℕ × Char × ℕ)
  | [] => none
  | c :: cs =>
    match mathCoreAt (c :: cs) with
    | some r => some r
    | none => mathSearch cs

/-- `re.fullmatch(r"\s*(\d+)\s*([+\-*/])\s*(\d+)\s*", t)`
(`cognitive_cycle.py`, line 226).  As in `mathCoreAt`, the character
classes are disjoint, so greedy scanning is the regex semantics. -/
def mathFull (l : List Char) : Option (ℕ × Char × ℕ) :=
  let r0 := l.dropWhile Char.isWhitespace
  let d1 := r0.takeWhile Char.isDigit
  if d1.isEmpty then none
  else
    match (r0.dropWhile Char.isDigit).dropWhile Char.isWhitespace with
    | [] => none
    | op :: r =>
      if op = '+' ∨ op = '-' ∨ op = '*' ∨ op = '/' then
        let r3 := r.dropWhile Char.isWhitespace
        let d2 := r3.takeWhile Char.isDigit
        if d2.isEmpty then none
        else if (r3.dropWhile Char.isDigit).dropWhile Char.isWhitespace = [] then
          some (digitsToNat d1, op, digitsToNat d2)
        else none
      else none

/-- Match `сколько\s+(?:будет\s+)?(\d+)\s*([+\-*/])\s*(\d+)` anchored at
this position (`cognitive_cycle.py`, line 237).  When the optional
`будет\s+` group is present but no core follows it, the regex backtracks
to not using the group, which then requires a digit where `б` stands —
the extra `mathCoreAt r1` call reproduces that (failing) attempt. -/
def m2At (l : List Char) : Option (ℕ × Char × ℕ) :=
  if listStarts "сколько".data l then
    let r := l.drop "сколько".data.length
    if (r.takeWhile Char.isWhitespace).isEmpty then none
    else
      let r1 := r.dropWhile Char.isWhitespace
      if listStarts "будет".data r1 then
        let r2 := r1.drop "будет".data.length
        if (r2.takeWhile Char.isWhitespace).isEmpty then mathCoreAt r1
        else
          match mathCoreAt (r2.dropWhile Char.isWhitespace) with
          | some v => some v
          | none => mathCoreAt r1
      else mathCoreAt r1
  else none

/-- `re.search` of the `сколько`-math pattern: leftmost position at which
`m2At` matches. -/
def m2Search : List Char → Option (ℕ × Char × ℕ)
  | [] => none
  | c :: cs =>
    match m2At (c :: cs) with
    | some r => some r
    | none => m2Search cs

/-- Try one alternative of a `(?:alt₁|alt₂|...)\s+(.+)` pattern at this
position and return the `(.+)` capture.  When nothing but whitespace
follows, the greedy `\s+` gives characters back to `(.+)` until the
handed-back character is not a newline; the capture is then whitespace
that the later `.strip()` erases, so the subject is empty. -/
def tryAlt (alt : List Char) (l : List Char) : Option (List Char) :=
  if listStarts alt l then
    let r := l.drop alt.length
    let ws := r.takeWhile Char.isWhitespace
    if ws.isEmpty then none
    else
      let r1 := r.dropWhile Char.isWhitespace
      if r1.isEmpty then
        if (ws.drop 1).any (fun c => c ≠ '\n') then some [] else none
      else some (r1.takeWhile (fun c => c ≠ '\n'))
  else none

/-- Alternatives are tried in their written order at a fixed position
(regex alternation semantics). -/
def firstAltAt (alts : List (List Char)) (l : List Char) : Option (List Char) :=
  alts.findSome? (fun a => tryAlt a l)

/-- `re.search` of a `(?:...)\s+(.+)` pattern: leftmost matching position. -/
def subjSearch (alts : List (List Char)) : List Char → Option (List Char)
  | [] => none
  | c :: cs =>
    match firstAltAt alts (c :: cs) with
    | some r => some r
    | none => subjSearch alts cs

/-- The non-math patterns of `TextAnalyzer.patterns` (`analyzer.py`,
lines 13-23), in dict order, each with its alternation list in written
order. -/
def patAlts : List (String × List String) :=
  [ ("definition", ["что такое", "что значит", "объясни", "расскажи про"]),
    ("how_to", ["как", "каким образом"]),
    ("why", ["почему", "зачем", "отчего"]),
    ("when", ["когда"]),
    ("where", ["где", "куда", "откуда"]),
    ("who", ["кто такой", "кто такая", "кто такие", "кто"]),
    ("compare", ["сравни", "чем отличается", "разница между"]),
    ("list", ["перечисли", "назови", "какие бывают"]) ]

/-- The question-opening words tested for `is_question` (`analyzer.py`,
lines 34-37). -/
def questionStarts : List String :=
  ["что", "как", "где", "когда", "почему", "зачем", "кто", "сколько"]

/-- Result of `TextAnalyzer.analyze` (`analyzer.py`, lines 25-51). -/
structure Analysis where
  original : String
  qtype : String
  subject : Option String
  operands : Option (ℕ × Char × ℕ)
  keywords : List String
  is_question : Bool

/-- `TextAnalyzer.analyze` (`analyzer.py`, lines 25-51): lowercase and strip,
compute keywords and `is_question` (the `?` test uses the original text),
then try the patterns in dict order and keep the first match. -/
def analyze (text : String) : Analysis :=
  let tl := pyStrip (pyLower text)
  let base : Analysis :=
    { original := text, qtype := "unknown", subject := none, operands := none,
      keywords := extractKeywords tl,
      is_question := pyIn "?" text || questionStarts.any (fun w => pyStartswith tl w) }
  match mathSearch tl.data with
  | some ops => { base with qtype := "math", operands := some ops }
  | none =>
    match patAlts.findSome?
        (fun p => (subjSearch (p.2.map String.data) tl.data).map (fun s => (p.1, s))) with
    | some (nm, subj) =>
      { base with qtype := nm, subject := some (pyStrip ⟨subj⟩) }
    | none => base

/-- Stand-in for Python's `repr` of a non-integral `float` (float-formatting
is not modelled; no claim evaluates a non-integral division result). -/
def pyFloatRepr (q : ℚ) : String := toString q

/-- Display of `a / b` after the `is_integer` collapse to `int`
(`analyzer.py`, lines 105-107; `b ≠ 0` at every call site). -/
def divResultStr (a b : ℕ) : String :=
  let q : ℚ := (a : ℚ) / (b : ℚ)
  if q.den = 1 then toString q.num else pyFloatRepr q

/-- The shared response line `f"{a} {op} {b} = {res}"` for a successful
computation (`analyzer.py`, line 108; `cognitive_cycle.py`, lines 233
and 244).  `+`, `-`, `*` give Python `int` results; `/` is reached only
with `b ≠ 0`. -/
def mathLine (a : ℕ) (op : Char) (b : ℕ) : String :=
  if op = '+' then
    let r := a + b
    s!"{a} {op} {b} = {r}"
  else if op = '-' then
    let r : ℤ := (a : ℤ) - (b : ℤ)
    s!"{a} {op} {b} = {r}"
  else if op = '*' then
    let r := a * b
    s!"{a} {op} {b} = {r}"
  else
    let r := divResultStr a b
    s!"{a} {op} {b} = {r}"

/-- `ResponseGenerator._solve_math` (`analyzer.py`, lines 95-112).  The
`ops` table covers every operator the pattern can capture, so of the two
`except` arms only `ZeroDivisionError` is reachable. -/
def solveMath (a : ℕ) (op : Char) (b : ℕ) : String :=
  if op = '/' ∧ b = 0 then "На ноль делить нельзя!"
  else mathLine a op b

/-- `ResponseGenerator._answer_with_search` (`analyzer.py`, lines 114-128).
`self.online_brain` is always set (the orchestrator constructs
`ResponseGenerator(self.online_brain)`), so the no-internet arm is dead. -/
def answerWithSearch (collab : Collab) (analysis : Analysis) : String :=
  let subj := analysis.subject.getD ""
  let query :=
    if analysis.qtype = "definition" then "что такое " ++ subj
    else if analysis.qtype = "how_to" then "как " ++ subj
    else if analysis.qtype = "who" then "кто такой " ++ subj
    else subj
  collab.onlineAnswer query

/-- `ResponseGenerator._answer_generic_question` (`analyzer.py`,
lines 130-135).  The context entries are working-memory dicts with keys
`role`/`content`, so `context[-1].get("input", "")` is always the empty
string — the interpolated topic in the reply is empty. -/
def answerGenericQuestion (context : List WMEntry) : String :=
  match context.getLast? with
  | some _ => "Ты спрашиваешь про то, что мы обсуждали ()? Уточни, пожалуйста."
  | none => "Интересный вопрос! Можешь уточнить, что именно тебя интересует?"

/-- The tech-word set of `_answer_by_keywords` (`analyzer.py`, line 142). -/
def techWords : List String :=
  ["python", "код", "программ", "функци", "класс", "метод"]

/-- `ResponseGenerator._answer_by_keywords` (`analyzer.py`, lines 137-148);
`self.online_brain` is always set, so a tech match always goes online. -/
def answerByKeywords (collab : Collab) (analysis : Analysis) : Option String :=
  if analysis.keywords.any
      (fun kw => techWords.contains kw || techWords.any (fun tw => pyIn tw kw)) then
    some (collab.onlineAnswer (String.intercalate " " (analysis.keywords.take 3)))
  else none

/-- `ResponseGenerator.generate` (`analyzer.py`, lines 73-93).  Note the
search-type list omits `when` and `where`, and Python's `not subject` is
true for both `None` and the empty string. -/
def generate (collab : Collab) (text : String) (context : List WMEntry) : Option String :=
  let analysis := analyze text
  if analysis.qtype = "math" then
    some (match analysis.operands with
          | some (a, op, b) => solveMath a op b
          | none => "Не смог посчитать это выражение.")
  else if analysis.qtype ∈ ["definition", "how_to", "why", "who", "compare", "list"] then
    some (answerWithSearch collab analysis)
  else if analysis.is_question ∧ (analysis.subject = none ∨ analysis.subject = some "") then
    some (answerGenericQuestion context)
  else if analysis.keywords ≠ [] then
    answerByKeywords collab analysis
  else none

/-! ### Turn orchestrator (`core/cognitive_cycle.py`) -/

/-- `_update_emotion` (`cognitive_cycle.py`, lines 81-90): at most one
stimulus per turn, first matching keyword group wins; the bare `?` test
uses the original (uncased) text. -/
def updateEmotion (e : EmotionEngine) (text : String) : EmotionEngine :=
  let t := pyLower text
  if ["привет", "здравствуй", "добрый"].any (fun w => pyIn w t) then
    applyStimulus e .joy (3 / 10)
  else if ["грустно", "плохо", "печаль"].any (fun w => pyIn w t) then
    applyStimulus e .sadness (4 / 10)
  else if ["злюсь", "бесит", "раздражает"].any (fun w => pyIn w t) then
    applyStimulus e .anger (3 / 10)
  else if pyIn "?" text then applyStimulus e .interest (2 / 10)
  else e

/-- `_infer_intent` (`cognitive_cycle.py`, lines 92-110): fixed priority
cascade, first match wins. -/
def inferIntent (text : String) : String :=
  let t := pyLower text
  if pyStartswith t "/status" then "status"
  else if pyStartswith t "/reset" then "reset"
  else if ["что ты умеешь", "что ты можешь", "кто ты"].any (fun w => pyIn w t) then
    "ask_capabilities"
  else if ["совет", "подскажи", "как мне", "что делать"].any (fun w => pyIn w t) then
    "ask_advice"
  else if ["грустно", "плохо", "одиноко", "тяжело"].any (fun w => pyIn w t) then
    "seek_support"
  else if pyIn "поиск_в_интернете" t then "search_skill"
  else if ["игра", "играть", "скучно"].any (fun w => pyIn w t) then "want_fun"
  else if pyIn "?" t then "generic_question"
  else "smalltalk"

/-- `_form_goals` (`cognitive_cycle.py`, lines 112-123): static intent-to-goal
table with default `["keep_conversation"]`. -/
def formGoals (intent : String) : List String :=
  if intent = "status" then ["report_internal_state"]
  else if intent = "reset" then ["reset_memory"]
  else if intent = "ask_capabilities" then ["describe_capabilities"]
  else if intent = "ask_advice" then ["analyze_situation", "give_simple_advice"]
  else if intent = "seek_support" then ["comfort_user", "show_empathy"]
  else if intent = "search_skill" then ["ack_search_skill", "maybe_online_search"]
  else if intent = "want_fun" then ["offer_simple_game"]
  else if intent = "generic_question" then ["try_answer_question"]
  else ["keep_conversation"]

/-- The goal-derived appends of `_make_plan` (`cognitive_cycle.py`,
lines 133-148), in their written order (factored out of `makePlan` so the
accumulated `plan` list has a name). -/
def makePlanGoalActions (client : Bool) (goals : List String) : List String :=
  (if "comfort_user" ∈ goals then ["check_recent_emotion", "generate_support_message"]
   else []) ++
  (if "show_empathy" ∈ goals then ["use_empathy_skill"] else []) ++
  (if "describe_capabilities" ∈ goals then ["describe_capabilities"] else []) ++
  (if "ack_search_skill" ∈ goals then ["ack_search_skill"] else []) ++
  (if "maybe_online_search" ∈ goals then ["maybe_online_search"] else []) ++
  (if "offer_simple_game" ∈ goals then ["offer_simple_game"] else []) ++
  (if "try_answer_question" ∈ goals then
    [if client then "query_llm" else "use_fallback_logic"] else []) ++
  (if "keep_conversation" ∈ goals then ["keep_conversation"] else [])

/-- `_make_plan` (`cognitive_cycle.py`, lines 125-150): terminal goals
short-circuit; otherwise the accumulated goal actions, with an empty
result replaced by the fallback action.  The unused `context`/`retrieved`
parameters of the Python method are dropped. -/
def makePlan (client : Bool) (goals : List String) : List String :=
  if "reset_memory" ∈ goals then ["do_reset_memory"]
  else if "report_internal_state" ∈ goals then ["describe_state"]
  else if makePlanGoalActions client goals = [] then ["use_fallback_logic"]
  else makePlanGoalActions client goals

/-- `_online_search_response` (`cognitive_cycle.py`, lines 197-201). -/
def onlineSearchResponse (collab : Collab) (text : String) : String :=
  let query := pyStrip text
  if query = "" then "Нужно что-то для поиска. Попробуй сформулировать запрос."
  else collab.onlineAnswer query

/-- `_generate_llm_response` (`cognitive_cycle.py`, lines 203-214), reached
only with a configured client: build the system prompt from the dominant
emotion and hand the message list to the external model.  The `except`
branch's `f"Ошибка API: {e}"` is one of the strings the parameter may
return; Python's `{conf:.0%}` formatting is abstracted by `round`. -/
def generateLlmResponse (collab : Collab) (s : CognitiveCycle) (input : String)
    (context : List WMEntry) : String :=
  let d := dominantEmotion s.emotion
  let v := d.1.value
  let c := toString (round (d.2 * 100)) ++ "%"
  let sys : WMEntry := ⟨"system", s!"Ты AI-компаньон. Эмоция: {v} ({c}). Отвечай кратко."⟩
  collab.llmRespond (sys :: context ++ [⟨"user", input⟩])

/-- The tail of `_fallback_response` after both math attempts
(`cognitive_cycle.py`, lines 248-257); the `?` test uses the original
text. -/
def fallbackTail3 (t text : String) : String :=
  if pyIn "что ты умеешь" t || pyIn "что ты можешь" t then
    "Я могу говорить, запоминать контекст, реагировать эмоциями и прокачивать навыки."
  else if pyIn "кто ты" t then
    "Я экспериментальный ИИ-компаньон, который учится на общении с тобой."
  else if pyIn "?" text then "Интересный вопрос. Как ты сам бы на него ответил?"
  else "Понял тебя. Можешь рассказать подробнее?"

/-- The `сколько`-search math attempt of `_fallback_response`
(`cognitive_cycle.py`, lines 237-246); a division by zero is swallowed by
`except: pass` and control falls through. -/
def fallbackTail2 (t text : String) : String :=
  match m2Search t.data with
  | some (a, op, b) =>
    if op = '/' ∧ b = 0 then fallbackTail3 t text else mathLine a op b
  | none => fallbackTail3 t text

/-- The full-match math attempt of `_fallback_response`
(`cognitive_cycle.py`, lines 226-235); a division by zero is swallowed by
`except: pass` and control falls through. -/
def fallbackTail1 (t text : String) : String :=
  match mathFull t.data with
  | some (a, op, b) =>
    if op = '/' ∧ b = 0 then fallbackTail2 t text else mathLine a op b
  | none => fallbackTail2 t text

/-- `_fallback_response` (`cognitive_cycle.py`, lines 216-257). -/
def fallbackResponse (e : EmotionEngine) (text : String) : String :=
  let t := pyStrip (pyLower text)
  if ["привет", "здравствуй", "добрый"].any (fun w => pyIn w t) then
    "Привет! Рад тебя видеть 🙂"
  else if pyIn "как дела" t then
    let v := (dominantEmotion e).1.value
    s!"У меня всё неплохо, чувствую {v}. А у тебя как?"
  else fallbackTail1 t text

/-- The common tail of `_run_plan` (`cognitive_cycle.py`, lines 191-195):
try the rule-based generator; Python's `if generated:` treats both `None`
and the empty string as false and falls back. -/
def planTail (collab : Collab) (s : CognitiveCycle) (input : String)
    (context : List WMEntry) : String :=
  match generate collab input context with
  | some g => if g = "" then fallbackResponse s.emotion input else g
  | none => fallbackResponse s.emotion input

/-- The `generate_support_message` branch (`cognitive_cycle.py`,
lines 162-164). -/
def supportMessage (s : CognitiveCycle) : String :=
  let v := (dominantEmotion s.emotion).1.value
  s!"Слышу, что тебе непросто. Сейчас я ощущаю {v}. Хочешь рассказать подробнее?"

/-- The `keep_conversation` reply (`cognitive_cycle.py`, line 189). -/
def recentlyDiscussed (lastInput : String) : String :=
  s!"Мы недавно обсуждали: \"{lastInput}\". Продолжим или сменим тему?"

/-- `_run_plan` (`cognitive_cycle.py`, lines 152-195): a fixed cascade of
`if action in plan` tests; the first test that fires produces the turn's
response.  The `describe_state` branch calls `self.get_state()`, but
`CognitiveCycle` defines no such method (see `cognitiveCycleMethods`), so
that branch raises instead of returning; only the reset branch mutates
state. -/
def runPlan (collab : Collab) (s : CognitiveCycle) (plan : List String) (input : String)
    (context : List WMEntry) (_retrieved : List Episode) :
    Except PyErr (CognitiveCycle × String) :=
  if "do_reset_memory" ∈ plan then
    .ok ({ s with working_memory := [], memory := [] },
         "Память очищена. Начинаем заново!")
  else if "describe_state" ∈ plan then
    .error (.attributeError "get_state")
  else if "generate_support_message" ∈ plan then
    .ok (s, supportMessage s)
  else if "describe_capabilities" ∈ plan then
    .ok (s, "Я ещё не полноценный ИИ, но уже умею: помнить контекст, реагировать эмоциями, прокачивать навыки и подстраиваться под тебя.")
  else if "use_empathy_skill" ∈ plan then
    .ok (s, if 3 ≤ getLevel s.skills "эмпатия" then
              "Я с тобой. Попробую быть максимально внимательным."
            else "Понимаю, что тебе непросто. Постараюсь поддержать.")
  else if "ack_search_skill" ∈ plan then
    .ok (s, if getLevel s.skills "поиск_в_интернете" = 0 then
              "Я пока только учусь поиску. Могу помочь сформулировать запрос."
            else "Навык поиска прокачан. Могу подсказать, как лучше искать.")
  else if "maybe_online_search" ∈ plan then
    .ok (s, onlineSearchResponse collab input)
  else if "offer_simple_game" ∈ plan then
    .ok (s, "Давай сыграем! Я загадаю число от 1 до 10, а ты угадай.")
  else if "query_llm" ∈ plan ∧ s.client = true then
    .ok (s, generateLlmResponse collab s input context)
  else if "keep_conversation" ∈ plan then
    match s.memory.getLast? with
    | some last =>
      if 3 < last.input.length then .ok (s, recentlyDiscussed last.input)
      else .ok (s, planTail collab s input context)
    | none => .ok (s, planTail collab s input context)
  else .ok (s, planTail collab s input context)

/-- `_update_skills` (`cognitive_cycle.py`, lines 259-266); `use_skill` is
called with its default `success=True`, `cycle=None`. -/
def updateSkills (sk : SkillSystem) (text : String) : SkillSystem :=
  let t := pyLower text
  let sk := if ["привет", "пока", "спасибо"].any (fun w => pyIn w t) then
              useSkill sk "приветствие" true none else sk
  let sk := if ["найди", "поищи", "загугли", "поиск_в_интернете"].any (fun w => pyIn w t) then
              useSkill sk "поиск_в_интернете" true none else sk
  if ["грустно", "плохо", "расстроен", "одиноко"].any (fun w => pyIn w t) then
    useSkill sk "эмпатия" true none
  else sk

/-- The topic vocabulary of `_learn` (`cognitive_cycle.py`, line 285). -/
def topicVocab : List String := ["игры", "работа", "учёба", "семья", "проект"]

/-- `topics[word] = topics.get(word, 0) + 1` on the insertion-ordered dict. -/
def topicBump (topics : List (String × ℕ)) (w : String) : List (String × ℕ) :=
  if topics.any (fun p => p.1 = w) then
    topics.map (fun p => if p.1 = w then (p.1, p.2 + 1) else p)
  else topics ++ [(w, 1)]

/-- The topic-count update of `_learn` (`cognitive_cycle.py`, lines 283-287). -/
def updateTopics (up : UserProfile) (input : String) : UserProfile :=
  let t := pyLower input
  { up with topics :=
      topicVocab.foldl (fun ts w => if pyIn w t then topicBump ts w else ts) up.topics }

/-- `_learn` (`cognitive_cycle.py`, lines 268-287): append the episode
(bounded at 100), run the keyword-triggered skill uses, update topic
counts. -/
def learn (s : CognitiveCycle) (input response : String) (context : List WMEntry)
    (retrieved : List Episode) (intent : String) (goals : List String) : CognitiveCycle :=
  let episode := Episode.mk input response context retrieved intent goals
  { s with memory := pushBounded 100 s.memory episode,
           skills := updateSkills s.skills input,
           user_profile := updateTopics s.user_profile input }

/-- `_cleanup` (`cognitive_cycle.py`, lines 289-292): affect decay then
`skills.tick()` (the `hasattr` guard is true).  The mis-indented
`def get_state` that follows in the source (line 294) adds nothing to
this method's behaviour. -/
def cleanup (s : CognitiveCycle) : CognitiveCycle :=
  { s with emotion := emotionDecay s.emotion, skills := tick s.skills 1 }

/-- `run_cycle` (`cognitive_cycle.py`, lines 44-64): bump the cycle counter,
gate on safety, then run the pipeline.  A raise inside `_run_plan`
propagates out of `run_cycle`; the state mutated before the raise
persists on the instance. -/
def runCycle (collab : Collab) (s : CognitiveCycle) (input : String) :
    CognitiveCycle × Except PyErr String :=
  let s := { s with cycle_count := s.cycle_count + 1 }
  let check := collab.safetyCheck input
  if check.1 = true then
    let s := { s with working_memory := pushBounded 20 s.working_memory ⟨"user", input⟩ }
    let context := takeLast 10 s.working_memory
    let retrieved := takeLast 5 s.memory
    let s := { s with emotion := updateEmotion s.emotion input }
    let intent := inferIntent input
    let goals := formGoals intent
    let plan := makePlan s.client goals
    match runPlan collab s plan input context retrieved with
    | .error e => (s, .error e)
    | .ok (s1, response) =>
      let s2 := learn s1 input response context retrieved intent goals
      (cleanup s2, .ok response)
  else (s, .ok ("⚠️ " ++ check.2))

/-- A sequence of turns against one orchestrator instance. -/
def runCycles (collab : Collab) (inputs : List String) (s : CognitiveCycle) :
    CognitiveCycle :=
  inputs.foldl (fun st inp => (runCycle collab st inp).1) s

/-- The methods defined at class-body level of `CognitiveCycle`
(`cognitive_cycle.py`).  `get_state` is not among them: its `def`
(line 294) sits at statement indentation inside `_cleanup`, and the lines
that follow are not indented past the `def`, so they do not form a valid
function body (as written, the module does not even parse). -/
def cognitiveCycleMethods : List String :=
  ["__init__", "run_cycle", "_perceive", "_update_working_memory", "_apply_attention",
   "_retrieve_memory", "_update_emotion", "_infer_intent", "_form_goals", "_make_plan",
   "_run_plan", "_online_search_response", "_generate_llm_response", "_fallback_response",
   "_update_skills", "_learn", "_cleanup"]

/-- The order in which `_make_plan` (`cognitive_cycle.py`, lines 125-150)
appends actions to a plan. -/
def planConstructionOrder : List String :=
  ["do_reset_memory", "describe_state", "check_recent_emotion", "generate_support_message",
   "use_empathy_skill", "describe_capabilities", "ack_search_skill", "maybe_online_search",
   "offer_simple_game", "query_llm", "use_fallback_logic", "keep_conversation"]

/-- The order in which `_run_plan` (`cognitive_cycle.py`, lines 152-195)
tests for actions. -/
def planExecutionOrder : List String :=
  ["do_reset_memory", "describe_state", "generate_support_message", "describe_capabilities",
   "use_empathy_skill", "ack_search_skill", "maybe_online_search", "offer_simple_game",
   "query_llm", "keep_conversation"]

/-- The first action of `order` present in `plan`. -/
def firstIn (order plan : List String) : Option String :=
  order.find? (fun a => decide (a ∈ plan))

/-- A concrete collaborator bundle: a safety gate that allows everything
and trivial external answerers (for closed evaluations). -/
def collabTrivial : Collab :=
  { safetyCheck := fun _ => (true, ""),
    onlineAnswer := fun _ => "",
    llmRespond := fun _ => "" }

/-- A concrete collaborator bundle whose safety gate rejects everything. -/
def collabReject : Collab :=
  { safetyCheck := fun _ => (false, "Сообщение заблокировано"),
    onlineAnswer := fun _ => "",
    llmRespond := fun _ => "" }

/-- The response component of a `_run_plan` result. -/
def planResponse (r : Except PyErr (CognitiveCycle × String)) : Option String :=
  match r with
  | .ok p => some p.2
  | .error _ => none

/-- The response component of a `run_cycle` result. -/
def cycleResponse (r : CognitiveCycle × Except PyErr String) : Option String :=
  match r.2 with
  | .ok v => some v
  | .error _ => none

/-! ### Helper lemmas -/

lemma listStarts_iff (n : List Char) : ∀ h : List Char,
    listStarts n h = true ↔ ∃ rest, h = n ++ rest := by
  induction n with
  | nil => intro h; simp [listStarts]
  | cons c cs ih =>
    intro h
    cases h with
    | nil => simp [listStarts]
    | cons d ds =>
      simp only [listStarts, Bool.and_eq_true, decide_eq_true_eq, ih, List.cons_append,
        List.cons.injEq]
      constructor
      · rintro ⟨rfl, rest, rfl⟩; exact ⟨rest, rfl, rfl⟩
      · rintro ⟨rest, rfl, rfl⟩; exact ⟨rfl, rest, rfl⟩

lemma findSkill_cons (sk : Skill) (l : List Skill) (name : String) :
    findSkill (sk :: l) name = if sk.name = name then some sk else findSkill l name := by
  simp only [findSkill, List.find?]
  by_cases h : sk.name = name <;> simp [h]

lemma findSkill_append_new (l : List Skill) (name : String) (new : Skill)
    (hl : findSkill l name = none) (hn : new.name = name) :
    findSkill (l ++ [new]) name = some new := by
  induction l with
  | nil => simp [findSkill, List.find?, hn]
  | cons sk rest ih =>
    rw [List.cons_append, findSkill_cons]
    rw [findSkill_cons] at hl
    by_cases h : sk.name = name
    · simp [h] at hl
    · simp only [h, if_false] at hl ⊢
      exact ih hl

lemma findSkill_updateFirst (l : List Skill) (name : String) (sk : Skill)
    (f : Skill → Skill) (hfind : findSkill l name = some sk)
    (hf : (f sk).name = name) :
    findSkill (updateFirst l name f) name = some (f sk) := by
  induction l with
  | nil => simp [findSkill, List.find?] at hfind
  | cons x rest ih =>
    rw [findSkill_cons] at hfind
    by_cases h : x.name = name
    · simp only [if_pos h] at hfind
      cases hfind
      simp only [updateFirst, if_pos h, findSkill_cons, hf, if_true]
    · simp only [if_neg h] at hfind
      simp only [updateFirst, if_neg h, findSkill_cons]
      exact ih hfind

lemma sumExp_cons (sk : Skill) (l : List Skill) :
    sumExp (sk :: l) = sk.experience + sumExp l := by
  simp [sumExp]

lemma sumExp_append_one (l : List Skill) (x : Skill) :
    sumExp (l ++ [x]) = sumExp l + x.experience := by
  simp [sumExp]

lemma sumExp_updateFirst (l : List Skill) (name : String) (sk : Skill)
    (f : Skill → Skill) (hfind : findSkill l name = some sk) :
    sumExp (updateFirst l name f)
      = sumExp l - sk.experience + (f sk).experience := by
  induction l with
  | nil => simp [findSkill, List.find?] at hfind
  | cons x rest ih =>
    rw [findSkill_cons] at hfind
    by_cases h : x.name = name
    · simp only [if_pos h] at hfind
      cases hfind
      simp only [updateFirst, if_pos h, sumExp_cons]
      ring
    · simp only [if_neg h] at hfind
      simp only [updateFirst, if_neg h, sumExp_cons, ih hfind]
      ring

/-- The XP granted by one `use_skill` call is positive. -/
lemma useSkill_xp_nonneg (success : Bool) (uses : ℕ) :
    0 ≤ (if success then (10 : ℚ) else 3) * min (1 + (uses : ℚ) * (1 / 100)) 2 := by
  have h1 : (0 : ℚ) ≤ min (1 + (uses : ℚ) * (1 / 100)) 2 :=
    le_min (by positivity) (by norm_num)
  have h2 : (0 : ℚ) ≤ if success then (10 : ℚ) else 3 := by
    cases success <;> norm_num
  exact mul_nonneg h2 h1

lemma findSkill_name (l : List Skill) (name : String) (sk : Skill)
    (h : findSkill l name = some sk) : sk.name = name := by
  unfold findSkill at h
  have := List.find?_some h
  simpa using this

/-! ### Claim C7 -/

/-- C7: for every skill name and success value, `use_skill` adds exactly
`baseXP * min(1 + 0.01*priorUses, 2.0)` to that skill's experience, where
`baseXP` is 10 on success and 3 on failure and `priorUses` is the use
count before the call (0 for a lazily created skill); consequently the
skill's experience never decreases across a `use_skill` call. -/
theorem claim_C7 (s : SkillSystem) (name : String) (success : Bool) (cycle : Option ℕ) :
    experienceOf (useSkill s name success cycle) name
        = experienceOf s name
          + (if success then (10 : ℚ) else 3)
            * min (1 + (usesOf s name : ℚ) * (1 / 100)) 2
    ∧ experienceOf s name ≤ experienceOf (useSkill s name success cycle) name := by
  have key : experienceOf (useSkill s name success cycle) name
      = experienceOf s name
        + (if success then (10 : ℚ) else 3)
          * min (1 + (usesOf s name : ℚ) * (1 / 100)) 2 := by
    unfold useSkill
    cases hfind : findSkill s.skills name with
    | none =>
      have h0 : findSkill (s.skills ++ [mkSkill name "общение" []]) name
          = some (mkSkill name "общение" []) := findSkill_append_new _ _ _ hfind rfl
      simp only [hfind, Option.isSome_none, Bool.false_eq_true, if_false, h0]
      unfold experienceOf usesOf
      dsimp only
      rw [hfind, findSkill_updateFirst _ _ _ _ h0 rfl]
      simp [mkSkill]
    | some sk =>
      have hname : sk.name = name := findSkill_name _ _ _ hfind
      simp only [hfind, Option.isSome_some, if_true]
      unfold experienceOf usesOf
      dsimp only
      rw [hfind, findSkill_updateFirst _ _ _ _ hfind hname]
      simp
  refine ⟨key, ?_⟩
  rw [key]
  have := useSkill_xp_nonneg success (usesOf s name)
  linarith

/-- One `tick` never pushes a skill above its pre-tick experience plus the
uniform passive share. -/
lemma tickSkill_exp_le (c m n : ℕ) (sk : Skill) :
    (tickSkill c m n sk).experience
      ≤ sk.experience + ((1 / 2 : ℚ) * n) / (max m 1 : ℕ) := by
  unfold tickSkill
  dsimp only
  split
  · next h =>
    have hd : 0 ≤ (sk.experience + ((1 / 2 : ℚ) * n) / (max m 1 : ℕ)) * (1 / 1000) * n := by
      have := h.2
      positivity
    have := h.2
    rw [max_le_iff]
    constructor
    · linarith
    · linarith
  · exact le_rfl

/-! ### Claim C8 -/

/-- C8: `tick n` maps every skill through `tickSkill`, which raises its
experience by at most the uniform passive share `0.5*n / numSkills`,
lowers it strictly below (pre-tick + share) only when the dormancy
`current_cycle − last_used_cycle` (measured after the cycle advance)
exceeds 50, and never drives it negative. -/
theorem claim_C8 (s : SkillSystem) (n : ℕ) (sk : Skill)
    (hexp : 0 ≤ sk.experience) (hlen : 0 < s.skills.length) :
    (tick s n).skills = s.skills.map (tickSkill (s.current_cycle + n) s.skills.length n)
    ∧ (tickSkill (s.current_cycle + n) s.skills.length n sk).experience
        ≤ sk.experience + ((1 / 2 : ℚ) * n) / (s.skills.length : ℚ)
    ∧ ((tickSkill (s.current_cycle + n) s.skills.length n sk).experience
          < sk.experience + ((1 / 2 : ℚ) * n) / (s.skills.length : ℚ)
        → 50 < (s.current_cycle + n : ℤ) - (sk.last_used_cycle : ℤ))
    ∧ 0 ≤ (tickSkill (s.current_cycle + n) s.skills.length n sk).experience := by
  have hmax : (max s.skills.length 1 : ℕ) = s.skills.length := Nat.max_eq_left hlen
  refine ⟨rfl, ?_, ?_, ?_⟩
  · have := tickSkill_exp_le (s.current_cycle + n) s.skills.length n sk
    rwa [hmax] at this
  · intro hlt
    by_contra hnot
    push_neg at hnot
    have : (tickSkill (s.current_cycle + n) s.skills.length n sk).experience
        = sk.experience + ((1 / 2 : ℚ) * n) / (s.skills.length : ℚ) := by
      unfold tickSkill
      dsimp only
      rw [if_neg, hmax]
      intro hc
      exact absurd hc.1 (not_lt.mpr hnot)
    rw [this] at hlt
    exact lt_irrefl _ hlt
  · unfold tickSkill
    dsimp only
    split
    · exact le_max_left 0 _
    · rw [hmax]
      positivity

/-- Witness for C8 at a concrete system and skill. -/
theorem claim_C8_witness :
    (0 ≤ (mkSkill "приветствие" "общение" ["social"]).experience
      ∧ 0 < skillInit.skills.length)
    ∧ ((tick skillInit 1).skills
          = skillInit.skills.map (tickSkill (skillInit.current_cycle + 1) skillInit.skills.length 1)
        ∧ (tickSkill (skillInit.current_cycle + 1) skillInit.skills.length 1
              (mkSkill "приветствие" "общение" ["social"])).experience
            ≤ (mkSkill "приветствие" "общение" ["social"]).experience
              + ((1 / 2 : ℚ) * 1) / (skillInit.skills.length : ℚ)
        ∧ ((tickSkill (skillInit.current_cycle + 1) skillInit.skills.length 1
              (mkSkill "приветствие" "общение" ["social"])).experience
              < (mkSkill "приветствие" "общение" ["social"]).experience
                + ((1 / 2 : ℚ) * 1) / (skillInit.skills.length : ℚ)
            → 50 < (skillInit.current_cycle + 1 : ℤ)
                - ((mkSkill "приветствие" "общение" ["social"]).last_used_cycle : ℤ))
        ∧ 0 ≤ (tickSkill (skillInit.current_cycle + 1) skillInit.skills.length 1
              (mkSkill "приветствие" "общение" ["social"])).experience) :=
  ⟨⟨by decide, by decide⟩,
   claim_C8 skillInit 1 (mkSkill "приветствие" "общение" ["social"]) (by decide) (by decide)⟩

lemma sumExp_map_le (l : List Skill) (f : Skill → Skill) (c : ℚ)
    (hf : ∀ sk, (f sk).experience ≤ sk.experience + c) :
    sumExp (l.map f) ≤ sumExp l + l.length * c := by
  induction l with
  | nil => simp [sumExp]
  | cons x rest ih =>
    simp only [List.map_cons, sumExp_cons, List.length_cons]
    have := hf x
    push_cast
    linarith

/-- `use_skill` preserves `sum of experience ≤ total_experience`. -/
lemma useSkill_sum_le (s : SkillSystem) (name : String) (success : Bool)
    (cycle : Option ℕ) (h : sumExp s.skills ≤ s.total_experience) :
    sumExp (useSkill s name success cycle).skills
      ≤ (useSkill s name success cycle).total_experience := by
  unfold useSkill
  cases hfind : findSkill s.skills name with
  | none =>
    have h0 : findSkill (s.skills ++ [mkSkill name "общение" []]) name
        = some (mkSkill name "общение" []) := findSkill_append_new _ _ _ hfind rfl
    simp only [hfind, Option.isSome_none, Bool.false_eq_true, if_false, h0]
    rw [sumExp_updateFirst _ _ _ _ h0, sumExp_append_one]
    simp only [mkSkill]
    linarith
  | some sk =>
    simp only [hfind, Option.isSome_some, if_true]
    rw [sumExp_updateFirst _ _ _ _ hfind]
    dsimp only
    linarith

/-- `tick` preserves `sum of experience ≤ total_experience`. -/
lemma tick_sum_le (s : SkillSystem) (n : ℕ)
    (h : sumExp s.skills ≤ s.total_experience) :
    sumExp (tick s n).skills ≤ (tick s n).total_experience := by
  unfold tick
  dsimp only
  have hmap := sumExp_map_le s.skills
      (tickSkill (s.current_cycle + n) s.skills.length n)
      (((1 / 2 : ℚ) * n) / (max s.skills.length 1 : ℕ))
      (fun sk => tickSkill_exp_le _ _ _ sk)
  have hlen : (s.skills.length : ℚ) * (((1 / 2 : ℚ) * n) / (max s.skills.length 1 : ℕ))
      ≤ (1 / 2 : ℚ) * n := by
    rcases Nat.eq_zero_or_pos s.skills.length with h0 | hpos
    · rw [h0]
      push_cast
      simp only [zero_mul]
      positivity
    · have hne : (s.skills.length : ℚ) ≠ 0 := Nat.cast_ne_zero.mpr hpos.ne'
      rw [Nat.max_eq_left hpos]
      have hcancel : (s.skills.length : ℚ)
          * (((1 / 2 : ℚ) * n) / ((s.skills.length : ℕ) : ℚ)) = (1 / 2 : ℚ) * n := by
        field_simp
        ring
      rw [hcancel]
  linarith

/-! ### Claim C10 -/

/-- C10: starting from a freshly constructed `SkillSystem`, after any
sequence of `use_skill` and `tick` calls the recorded
`total_experience` is at least the sum of the per-skill experience:
`use_skill` adds the same XP to both, `tick` adds the same total passive
XP to both, and the dormancy decay is subtracted only from individual
skills, never from the total. -/
theorem claim_C10 (ops : List SkillOp) :
    sumExp (applySkillOps skillInit ops).skills
      ≤ (applySkillOps skillInit ops).total_experience := by
  suffices h : ∀ (ops : List SkillOp) (s : SkillSystem),
      sumExp s.skills ≤ s.total_experience →
      sumExp (applySkillOps s ops).skills ≤ (applySkillOps s ops).total_experience by
    exact h ops skillInit (by norm_num [skillInit, sumExp, mkSkill])
  intro ops
  induction ops with
  | nil => intro s hs; exact hs
  | cons op rest ih =>
    intro s hs
    cases op with
    | use name success cycle =>
      exact ih _ (useSkill_sum_le s name success cycle hs)
    | tick n =>
      exact ih _ (tick_sum_le s n hs)

lemma intLog_ratCast (q : ℚ) (hq : 1 ≤ q) :
    Int.log 10 ((q : ℝ)) = Int.log 10 q := by
  have hq' : (1 : ℝ) ≤ (q : ℝ) := by exact_mod_cast hq
  rw [Int.log_of_one_le_right _ hq', Int.log_of_one_le_right _ hq]
  congr 1
  rw [← Int.floor_toNat, ← Int.floor_toNat, Rat.floor_cast]

/-- The executable form of `get_total_level` agrees with the floor of the
base-10 logarithm that the source computes. -/
lemma totalLevel_formula (t : ℚ) (ht : 0 ≤ t) :
    Int.log 10 (((t + 1) ^ 2 : ℚ)) = ⌊Real.logb 10 ((t : ℝ) + 1) * 2⌋ := by
  have ht' : (0 : ℝ) ≤ (t : ℝ) := by exact_mod_cast ht
  have h1 : (1 : ℚ) ≤ (t + 1) ^ 2 := by nlinarith
  have hxx : (((t + 1) ^ 2 : ℚ) : ℝ) = ((t : ℝ) + 1) ^ 2 := by push_cast; ring
  have step1 : ⌊Real.logb 10 ((t : ℝ) + 1) * 2⌋ = Int.log 10 ((((t + 1) ^ 2 : ℚ) : ℝ)) := by
    rw [hxx]
    rw [show Real.logb 10 ((t : ℝ) + 1) * 2 = Real.logb 10 (((t : ℝ) + 1) ^ 2) by
      rw [Real.logb_pow]; push_cast; ring]
    rw [show (10 : ℝ) = ((10 : ℕ) : ℝ) by norm_num]
    exact Real.floor_logb_natCast (by positivity)
  rw [step1, intLog_ratCast _ h1]

lemma useSkill_total_le (s : SkillSystem) (name : String) (success : Bool)
    (cycle : Option ℕ) :
    s.total_experience ≤ (useSkill s name success cycle).total_experience := by
  unfold useSkill
  cases hfind : findSkill s.skills name with
  | none =>
    have h0 : findSkill (s.skills ++ [mkSkill name "общение" []]) name
        = some (mkSkill name "общение" []) := findSkill_append_new _ _ _ hfind rfl
    simp only [hfind, Option.isSome_none, Bool.false_eq_true, if_false, h0]
    have := useSkill_xp_nonneg success (mkSkill name "общение" []).uses
    linarith
  | some sk =>
    simp only [hfind, Option.isSome_some, if_true]
    have := useSkill_xp_nonneg success sk.uses
    linarith

lemma tick_total_le (s : SkillSystem) (n : ℕ) :
    s.total_experience ≤ (tick s n).total_experience := by
  unfold tick
  dsimp only
  have : (0 : ℚ) ≤ (1 / 2 : ℚ) * n := by positivity
  linarith

lemma applySkillOps_total_le (ops : List SkillOp) :
    ∀ s : SkillSystem, s.total_experience ≤ (applySkillOps s ops).total_experience := by
  induction ops with
  | nil => intro s; exact le_rfl
  | cons op rest ih =>
    intro s
    refine le_trans ?_ (ih (s.applyOp op))
    cases op with
    | use name success cycle => exact useSkill_total_le s name success cycle
    | tick n => exact tick_total_le s n

/-! ### Claim C9 -/

/-- C9: `get_total_level` equals `floor(log10(total + 1) * 2) + 1`, and
since the lifetime total experience never decreases under any sequence of
`use_skill` and `tick` calls, `get_total_level` is non-decreasing over
any such sequence. -/
theorem claim_C9 (s : SkillSystem) (ops : List SkillOp)
    (h : 0 ≤ s.total_experience) :
    getTotalLevel s = ⌊Real.logb 10 ((s.total_experience : ℝ) + 1) * 2⌋ + 1
    ∧ s.total_experience ≤ (applySkillOps s ops).total_experience
    ∧ getTotalLevel s ≤ getTotalLevel (applySkillOps s ops) := by
  have hmono := applySkillOps_total_le ops s
  refine ⟨?_, hmono, ?_⟩
  · unfold getTotalLevel
    rw [totalLevel_formula s.total_experience h]
  · unfold getTotalLevel
    have hp : (0 : ℚ) < (s.total_experience + 1) ^ 2 := by positivity
    have hle : (s.total_experience + 1) ^ 2
        ≤ ((applySkillOps s ops).total_experience + 1) ^ 2 := by nlinarith
    exact add_le_add_right (Int.log_mono_right hp hle) 1

/-- Witness for C9 at the freshly constructed skill system and one tick. -/
theorem claim_C9_witness :
    0 ≤ skillInit.total_experience
    ∧ (getTotalLevel skillInit
          = ⌊Real.logb 10 ((skillInit.total_experience : ℝ) + 1) * 2⌋ + 1
        ∧ skillInit.total_experience
            ≤ (applySkillOps skillInit [SkillOp.tick 1]).total_experience
        ∧ getTotalLevel skillInit
            ≤ getTotalLevel (applySkillOps skillInit [SkillOp.tick 1])) :=
  ⟨by decide, claim_C9 skillInit [SkillOp.tick 1] (by decide)⟩

lemma pushBounded_length_le {α : Type} (cap : ℕ) (xs : List α) (x : α)
    (h : xs.length ≤ cap) : (pushBounded cap xs x).length ≤ cap := by
  unfold pushBounded
  dsimp only
  split
  · next hlt =>
    rw [List.length_drop]
    omega
  · next hge =>
    simp only [List.length_append, List.length_cons, List.length_nil] at *
    omega

/-- After `_run_plan` returns normally, the state is either untouched or has
both memories cleared (only the reset branch mutates). -/
lemma runPlan_state (collab : Collab) (s : CognitiveCycle) (plan : List String)
    (input : String) (context : List WMEntry) (retrieved : List Episode)
    (s1 : CognitiveCycle) (r : String)
    (h : runPlan collab s plan input context retrieved = .ok (s1, r)) :
    s1 = s ∨ s1 = { s with working_memory := [], memory := [] } := by
  unfold runPlan at h
  by_cases c1 : "do_reset_memory" ∈ plan
  · rw [if_pos c1] at h; right; cases h; rfl
  rw [if_neg c1] at h
  by_cases c2 : "describe_state" ∈ plan
  · rw [if_pos c2] at h; exact Except.noConfusion h
  rw [if_neg c2] at h
  by_cases c3 : "generate_support_message" ∈ plan
  · rw [if_pos c3] at h; left; cases h; rfl
  rw [if_neg c3] at h
  by_cases c4 : "describe_capabilities" ∈ plan
  · rw [if_pos c4] at h; left; cases h; rfl
  rw [if_neg c4] at h
  by_cases c5 : "use_empathy_skill" ∈ plan
  · rw [if_pos c5] at h; left; cases h; rfl
  rw [if_neg c5] at h
  by_cases c6 : "ack_search_skill" ∈ plan
  · rw [if_pos c6] at h; left; cases h; rfl
  rw [if_neg c6] at h
  by_cases c7 : "maybe_online_search" ∈ plan
  · rw [if_pos c7] at h; left; cases h; rfl
  rw [if_neg c7] at h
  by_cases c8 : "offer_simple_game" ∈ plan
  · rw [if_pos c8] at h; left; cases h; rfl
  rw [if_neg c8] at h
  by_cases c9 : "query_llm" ∈ plan ∧ s.client = true
  · rw [if_pos c9] at h; left; cases h; rfl
  rw [if_neg c9] at h
  by_cases c10 : "keep_conversation" ∈ plan
  · rw [if_pos c10] at h
    rcases hl : s.memory.getLast? with _ | last
    · rw [hl] at h
      dsimp only at h
      left; cases h; rfl
    · rw [hl] at h
      dsimp only at h
      by_cases c11 : 3 < last.input.length
      · rw [if_pos c11] at h; left; cases h; rfl
      · rw [if_neg c11] at h; left; cases h; rfl
  rw [if_neg c10] at h
  left; cases h; rfl

/-- `memInv` is the pair of memory bounds of the spec. -/
def memInv (s : CognitiveCycle) : Prop :=
  s.working_memory.length ≤ 20 ∧ s.memory.length ≤ 100

lemma runCycle_memInv (collab : Collab) (s : CognitiveCycle) (input : String)
    (h : memInv s) : memInv (runCycle collab s input).1 := by
  obtain ⟨hwm, hmem⟩ := h
  unfold runCycle
  dsimp only
  split
  · -- safe turn
    have hwm' : (pushBounded 20 s.working_memory (WMEntry.mk "user" input)).length ≤ 20 :=
      pushBounded_length_le 20 _ _ hwm
    rcases hplan : runPlan collab
        { s with cycle_count := s.cycle_count + 1,
                 working_memory := pushBounded 20 s.working_memory ⟨"user", input⟩,
                 emotion := updateEmotion s.emotion input }
        (makePlan s.client (formGoals (inferIntent input))) input
        (takeLast 10 (pushBounded 20 s.working_memory ⟨"user", input⟩))
        (takeLast 5 s.memory) with _ | p
    · exact ⟨hwm', hmem⟩
    · obtain ⟨s1, r⟩ := p
      have hst := runPlan_state _ _ _ _ _ _ _ _ hplan
      dsimp only
      unfold cleanup learn
      dsimp only
      rcases hst with h1 | h1 <;> subst h1
      · exact ⟨hwm', pushBounded_length_le 100 _ _ hmem⟩
      · exact ⟨show List.length ([] : List WMEntry) ≤ 20 by simp,
               pushBounded_length_le 100 _ _
                 (show List.length ([] : List Episode) ≤ 100 by simp)⟩
  · exact ⟨hwm, hmem⟩

lemma runCycles_memInv (collab : Collab) (inputs : List String) :
    ∀ s : CognitiveCycle, memInv s → memInv (runCycles collab inputs s) := by
  induction inputs with
  | nil => intro s h; exact h
  | cons i rest ih =>
    intro s h
    exact ih _ (runCycle_memInv collab s i h)

/-! ### Claim C6 -/

/-- C6: after any sequence of `run_cycle` calls on one orchestrator
instance, working memory holds at most 20 entries and episodic memory at
most 100; and when an append would exceed the bound, exactly the oldest
entry is evicted (the kept list is the suffix `tail ++ [new]`). -/
theorem claim_C6 :
    (∀ (collab : Collab) (client : Bool) (inputs : List String),
        (runCycles collab inputs (initCycle client)).working_memory.length ≤ 20
        ∧ (runCycles collab inputs (initCycle client)).memory.length ≤ 100)
    ∧ (∀ (xs : List WMEntry) (x : WMEntry), xs.length = 20 →
        pushBounded 20 xs x = xs.tail ++ [x])
    ∧ (∀ (es : List Episode) (e : Episode), es.length = 100 →
        pushBounded 100 es e = es.tail ++ [e]) := by
  refine ⟨?_, ?_, ?_⟩
  · intro collab client inputs
    exact runCycles_memInv collab inputs (initCycle client) ⟨by simp [initCycle], by simp [initCycle]⟩
  · intro xs x hlen
    unfold pushBounded
    dsimp only
    rw [if_pos (by simp [hlen])]
    simp [hlen, List.drop_append_of_le_length, List.drop_one]
  · intro es e hlen
    unfold pushBounded
    dsimp only
    rw [if_pos (by simp [hlen])]
    simp [hlen, List.drop_append_of_le_length, List.drop_one]

/-- Witness for C6: a one-turn run and concrete full lists. -/
theorem claim_C6_witness :
    ((runCycles collabTrivial ["пример"] (initCycle false)).working_memory.length ≤ 20
      ∧ (runCycles collabTrivial ["пример"] (initCycle false)).memory.length ≤ 100)
    ∧ ((List.replicate 20 (WMEntry.mk "user" "x")).length = 20
        ∧ pushBounded 20 (List.replicate 20 (WMEntry.mk "user" "x")) (WMEntry.mk "user" "y")
            = (List.replicate 20 (WMEntry.mk "user" "x")).tail ++ [WMEntry.mk "user" "y"])
    ∧ ((List.replicate 100 (Episode.mk "a" "b" [] [] "i" [])).length = 100
        ∧ pushBounded 100 (List.replicate 100 (Episode.mk "a" "b" [] [] "i" []))
              (Episode.mk "c" "d" [] [] "j" [])
            = (List.replicate 100 (Episode.mk "a" "b" [] [] "i" [])).tail
              ++ [Episode.mk "c" "d" [] [] "j" []]) :=
  ⟨claim_C6.1 collabTrivial false ["пример"],
   ⟨by decide, claim_C6.2.1 _ _ (by decide)⟩,
   ⟨by decide, claim_C6.2.2 _ _ (by decide)⟩⟩

/-! ### Claim C3 -/

/-- C3: a turn rejected by the safety gate returns the warning string
`"⚠️ " ++ reason` and mutates nothing but the cycle counter: working
memory, episodic memory, the skill ledger, the affect state, and the user
profile are exactly the values from before the call, and the cycle
counter increases by exactly one.  (The gate itself is the spec-modelled
`safetyCheck` collaborator.) -/
theorem claim_C3 (collab : Collab) (s : CognitiveCycle) (input : String)
    (h : (collab.safetyCheck input).1 = false) :
    (runCycle collab s input).2 = .ok ("⚠️ " ++ (collab.safetyCheck input).2)
    ∧ (runCycle collab s input).1.working_memory = s.working_memory
    ∧ (runCycle collab s input).1.memory = s.memory
    ∧ (runCycle collab s input).1.skills = s.skills
    ∧ (runCycle collab s input).1.emotion = s.emotion
    ∧ (runCycle collab s input).1.user_profile = s.user_profile
    ∧ (runCycle collab s input).1.cycle_count = s.cycle_count + 1 := by
  unfold runCycle
  rw [if_neg (by rw [h]; exact Bool.false_ne_true)]
  exact ⟨rfl, rfl, rfl, rfl, rfl, rfl, rfl⟩

/-- Witness for C3 at a rejecting gate. -/
theorem claim_C3_witness :
    (collabReject.safetyCheck "привет").1 = false
    ∧ ((runCycle collabReject (initCycle false) "привет").2
          = .ok ("⚠️ " ++ (collabReject.safetyCheck "привет").2)
        ∧ (runCycle collabReject (initCycle false) "привет").1.working_memory
            = (initCycle false).working_memory
        ∧ (runCycle collabReject (initCycle false) "привет").1.memory
            = (initCycle false).memory
        ∧ (runCycle collabReject (initCycle false) "привет").1.skills
            = (initCycle false).skills
        ∧ (runCycle collabReject (initCycle false) "привет").1.emotion
            = (initCycle false).emotion
        ∧ (runCycle collabReject (initCycle false) "привет").1.user_profile
            = (initCycle false).user_profile
        ∧ (runCycle collabReject (initCycle false) "привет").1.cycle_count
            = (initCycle false).cycle_count + 1) :=
  ⟨rfl, claim_C3 collabReject (initCycle false) "привет" rfl⟩

lemma inferIntent_status (input : String)
    (h : pyStartswith (pyLower input) "/status" = true) :
    inferIntent input = "status" := by
  unfold inferIntent
  rw [if_pos h]

lemma startsReset_not_status (input : String)
    (h : pyStartswith (pyLower input) "/reset" = true) :
    pyStartswith (pyLower input) "/status" = false := by
  unfold pyStartswith at h ⊢
  obtain ⟨rest, hr⟩ := (listStarts_iff _ _).mp h
  rw [hr]
  rw [show "/reset".data = ['/', 'r', 'e', 's', 'e', 't'] from rfl,
      show "/status".data = ['/', 's', 't', 'a', 't', 'u', 's'] from rfl]
  simp [listStarts]

lemma inferIntent_reset (input : String)
    (h : pyStartswith (pyLower input) "/reset" = true) :
    inferIntent input = "reset" := by
  unfold inferIntent
  rw [if_neg (by rw [startsReset_not_status input h]; exact Bool.false_ne_true), if_pos h]

/-! ### Claim C2 -/

/-- C2: every safe input starting with `/status` produces the plan
`["describe_state"]`, whose execution evaluates `self.get_state()`; but
`get_state` is not a method of `CognitiveCycle` (its `def` is nested
inside `_cleanup` with a body that is not indented past it), so the call
has no target and the status turn always ends in the error path — the
specified state report can never be produced. -/
theorem claim_C2 (collab : Collab) (s : CognitiveCycle) (input : String)
    (hsafe : (collab.safetyCheck input).1 = true)
    (hpre : pyStartswith (pyLower input) "/status" = true) :
    "get_state" ∉ cognitiveCycleMethods
    ∧ makePlan s.client (formGoals (inferIntent input)) = ["describe_state"]
    ∧ (runCycle collab s input).2 = .error (.attributeError "get_state") := by
  have hintent := inferIntent_status input hpre
  refine ⟨by decide, ?_, ?_⟩
  · rw [hintent]
    rfl
  · unfold runCycle
    rw [if_pos hsafe, hintent]
    rfl

/-- Witness for C2 at the concrete input `"/status"`. -/
theorem claim_C2_witness :
    ((collabTrivial.safetyCheck "/status").1 = true
      ∧ pyStartswith (pyLower "/status") "/status" = true)
    ∧ ("get_state" ∉ cognitiveCycleMethods
        ∧ makePlan (initCycle false).client (formGoals (inferIntent "/status"))
            = ["describe_state"]
        ∧ (runCycle collabTrivial (initCycle false) "/status").2
            = .error (.attributeError "get_state")) :=
  ⟨⟨rfl, rfl⟩, claim_C2 collabTrivial (initCycle false) "/status" rfl rfl⟩

/-! ### Claim C1 -/

/-- C1 (amended): a safe turn whose input starts with `/reset` returns the
fixed confirmation text and clears both memories inside `_run_plan`; the
working memory is still empty at the end of the turn, but `_learn` then
appends the episode of the reset turn itself, so the episodic memory ends
the turn holding exactly that one episode rather than being empty. -/
theorem claim_C1_amended (collab : Collab) (s : CognitiveCycle) (input : String)
    (hsafe : (collab.safetyCheck input).1 = true)
    (hre : pyStartswith (pyLower input) "/reset" = true) :
    (runCycle collab s input).2 = .ok "Память очищена. Начинаем заново!"
    ∧ (runCycle collab s input).1.working_memory = []
    ∧ (runCycle collab s input).1.memory
        = [Episode.mk input "Память очищена. Начинаем заново!"
            (takeLast 10 (pushBounded 20 s.working_memory ⟨"user", input⟩))
            (takeLast 5 s.memory) "reset" ["reset_memory"]] := by
  have hintent := inferIntent_reset input hre
  unfold runCycle
  rw [if_pos hsafe, hintent]
  exact ⟨rfl, rfl, rfl⟩

/-- Witness for C1's amended statement at the concrete input `"/reset"`. -/
theorem claim_C1_witness :
    ((collabTrivial.safetyCheck "/reset").1 = true
      ∧ pyStartswith (pyLower "/reset") "/reset" = true)
    ∧ ((runCycle collabTrivial (initCycle false) "/reset").2
          = .ok "Память очищена. Начинаем заново!"
        ∧ (runCycle collabTrivial (initCycle false) "/reset").1.working_memory = []
        ∧ (runCycle collabTrivial (initCycle false) "/reset").1.memory
            = [Episode.mk "/reset" "Память очищена. Начинаем заново!"
                (takeLast 10 (pushBounded 20 (initCycle false).working_memory
                  ⟨"user", "/reset"⟩))
                (takeLast 5 (initCycle false).memory) "reset" ["reset_memory"]]) :=
  ⟨⟨rfl, rfl⟩, claim_C1_amended collabTrivial (initCycle false) "/reset" rfl rfl⟩

/-- C1 counterexample: on the concrete reset turn the confirmation text is
returned and working memory is cleared, yet the episodic memory is not
empty at the end of the turn (the reset episode was appended after the
clear), contradicting the claim's "both memories are empty". -/
theorem claim_C1_counterexample :
    (runCycle collabTrivial (initCycle false) "/reset").2
        = .ok "Память очищена. Начинаем заново!"
    ∧ (runCycle collabTrivial (initCycle false) "/reset").1.working_memory = []
    ∧ (runCycle collabTrivial (initCycle false) "/reset").1.memory ≠ [] := by
  refine ⟨rfl, rfl, ?_⟩
  have hlen : (runCycle collabTrivial (initCycle false) "/reset").1.memory.length = 1 := rfl
  intro hnil
  rw [hnil] at hlen
  exact absurd hlen (by decide)

/-! ### Claim C4 -/

/-- C4 (amended): when the episodic memory is empty (for instance on a
fresh orchestrator), a safe `"2 + 2"` turn answers exactly `"2 + 2 = 4"`
and a safe `"5 / 0"` turn answers the fixed divide-by-zero message, with
no unhandled failure; in states whose last episode has an input longer
than three characters, the `keep_conversation` branch shadows the math
answer instead (see the counterexample). -/
theorem claim_C4_amended (collab : Collab) (s : CognitiveCycle)
    (h2 : (collab.safetyCheck "2 + 2").1 = true)
    (h5 : (collab.safetyCheck "5 / 0").1 = true)
    (hmem : s.memory = []) :
    (runCycle collab s "2 + 2").2 = .ok "2 + 2 = 4"
    ∧ (runCycle collab s "5 / 0").2 = .ok "На ноль делить нельзя!" := by
  constructor
  · unfold runCycle
    rw [if_pos h2]
    dsimp only
    rw [hmem]
    rfl
  · unfold runCycle
    rw [if_pos h5]
    dsimp only
    rw [hmem]
    rfl

/-- Witness for C4's amended statement on a fresh orchestrator. -/
theorem claim_C4_witness :
    ((collabTrivial.safetyCheck "2 + 2").1 = true
      ∧ (collabTrivial.safetyCheck "5 / 0").1 = true
      ∧ (initCycle false).memory = [])
    ∧ ((runCycle collabTrivial (initCycle false) "2 + 2").2 = .ok "2 + 2 = 4"
        ∧ (runCycle collabTrivial (initCycle false) "5 / 0").2
            = .ok "На ноль делить нельзя!") :=
  ⟨⟨rfl, rfl, rfl⟩, claim_C4_amended collabTrivial (initCycle false) rfl rfl rfl⟩

/-- C4 counterexample: the claim quantifies over every reachable
orchestrator state, but after one safe turn `"привет привет"` (an
episode whose input is longer than three characters) the next turn
`"2 + 2"` is answered by the `keep_conversation` continuation, not by
`"2 + 2 = 4"`. -/
theorem claim_C4_counterexample :
    cycleResponse (runCycle collabTrivial
        (runCycle collabTrivial (initCycle false) "привет привет").1 "2 + 2")
      = some "Мы недавно обсуждали: \"привет привет\". Продолжим или сменим тему?"
    ∧ cycleResponse (runCycle collabTrivial
        (runCycle collabTrivial (initCycle false) "привет привет").1 "2 + 2")
      ≠ some "2 + 2 = 4" := by
  refine ⟨rfl, ?_⟩
  rw [show cycleResponse (runCycle collabTrivial
      (runCycle collabTrivial (initCycle false) "привет привет").1 "2 + 2")
    = some "Мы недавно обсуждали: \"привет привет\". Продолжим или сменим тему?" from rfl]
  decide

/-- The accumulated goal actions of an unconfigured client never include
`query_llm`. -/
lemma query_llm_not_mem_goalActions (goals : List String) :
    "query_llm" ∉ makePlanGoalActions false goals := by
  unfold makePlanGoalActions
  intro hmem
  simp only [List.mem_append, Bool.false_eq_true, if_false] at hmem
  rcases hmem with ((((((h | h) | h) | h) | h) | h) | h) | h <;>
    (revert h; split <;> decide)

/-- With an unconfigured client, `_make_plan` never emits `query_llm`. -/
lemma query_llm_not_mem_makePlan_false (goals : List String) :
    "query_llm" ∉ makePlan false goals := by
  unfold makePlan
  by_cases h1 : "reset_memory" ∈ goals
  · rw [if_pos h1]; decide
  rw [if_neg h1]
  by_cases h2 : "report_internal_state" ∈ goals
  · rw [if_pos h2]; decide
  rw [if_neg h2]
  by_cases h3 : makePlanGoalActions false goals = []
  · rw [if_pos h3]; decide
  · rw [if_neg h3]
    exact query_llm_not_mem_goalActions goals

/-- A constructed plan contains `query_llm` only when the client is
configured. -/
lemma makePlan_query_llm (client : Bool) (goals : List String)
    (h : "query_llm" ∈ makePlan client goals) : client = true := by
  cases client
  · exact absurd h (query_llm_not_mem_makePlan_false goals)
  · rfl

/-- `_run_plan` behaves on any plan exactly as it behaves on the singleton
plan of the plan's first action in the dispatch order: lower-priority
actions contribute nothing to the turn. -/
lemma runPlan_firstIn (collab : Collab) (s : CognitiveCycle) (plan : List String)
    (input : String) (context : List WMEntry) (retrieved : List Episode)
    (hq : "query_llm" ∈ plan → s.client = true) :
    runPlan collab s plan input context retrieved
      = match firstIn planExecutionOrder plan with
        | some a => runPlan collab s [a] input context retrieved
        | none => runPlan collab s [] input context retrieved := by
  unfold firstIn planExecutionOrder
  by_cases c1 : "do_reset_memory" ∈ plan
  · rw [List.find?_cons_of_pos _ (by simp [c1])]
    dsimp only
    unfold runPlan
    rw [if_pos c1]
    rfl
  rw [List.find?_cons_of_neg _ (by simp [c1])]
  by_cases c2 : "describe_state" ∈ plan
  · rw [List.find?_cons_of_pos _ (by simp [c2])]
    dsimp only
    unfold runPlan
    rw [if_neg c1, if_pos c2]
    rfl
  rw [List.find?_cons_of_neg _ (by simp [c2])]
  by_cases c3 : "generate_support_message" ∈ plan
  · rw [List.find?_cons_of_pos _ (by simp [c3])]
    dsimp only
    unfold runPlan
    rw [if_neg c1, if_neg c2, if_pos c3]
    rfl
  rw [List.find?_cons_of_neg _ (by simp [c3])]
  by_cases c4 : "describe_capabilities" ∈ plan
  · rw [List.find?_cons_of_pos _ (by simp [c4])]
    dsimp only
    unfold runPlan
    rw [if_neg c1, if_neg c2, if_neg c3, if_pos c4]
    rfl
  rw [List.find?_cons_of_neg _ (by simp [c4])]
  by_cases c5 : "use_empathy_skill" ∈ plan
  · rw [List.find?_cons_of_pos _ (by simp [c5])]
    dsimp only
    unfold runPlan
    rw [if_neg c1, if_neg c2, if_neg c3, if_neg c4, if_pos c5]
    rfl
  rw [List.find?_cons_of_neg _ (by simp [c5])]
  by_cases c6 : "ack_search_skill" ∈ plan
  · rw [List.find?_cons_of_pos _ (by simp [c6])]
    dsimp only
    unfold runPlan
    rw [if_neg c1, if_neg c2, if_neg c3, if_neg c4, if_neg c5, if_pos c6]
    rfl
  rw [List.find?_cons_of_neg _ (by simp [c6])]
  by_cases c7 : "maybe_online_search" ∈ plan
  · rw [List.find?_cons_of_pos _ (by simp [c7])]
    dsimp only
    unfold runPlan
    rw [if_neg c1, if_neg c2, if_neg c3, if_neg c4, if_neg c5, if_neg c6, if_pos c7]
    rfl
  rw [List.find?_cons_of_neg _ (by simp [c7])]
  by_cases c8 : "offer_simple_game" ∈ plan
  · rw [List.find?_cons_of_pos _ (by simp [c8])]
    dsimp only
    unfold runPlan
    rw [if_neg c1, if_neg c2, if_neg c3, if_neg c4, if_neg c5, if_neg c6, if_neg c7,
        if_pos c8]
    rfl
  rw [List.find?_cons_of_neg _ (by simp [c8])]
  by_cases c9 : "query_llm" ∈ plan
  · have hcl : s.client = true := hq c9
    rw [List.find?_cons_of_pos _ (by simp [c9])]
    dsimp only
    unfold runPlan
    rw [if_neg c1, if_neg c2, if_neg c3, if_neg c4, if_neg c5, if_neg c6, if_neg c7,
        if_neg c8, if_pos ⟨c9, hcl⟩]
    rw [if_neg (by decide : ¬("do_reset_memory" ∈ ["query_llm"])),
        if_neg (by decide : ¬("describe_state" ∈ ["query_llm"])),
        if_neg (by decide : ¬("generate_support_message" ∈ ["query_llm"])),
        if_neg (by decide : ¬("describe_capabilities" ∈ ["query_llm"])),
        if_neg (by decide : ¬("use_empathy_skill" ∈ ["query_llm"])),
        if_neg (by decide : ¬("ack_search_skill" ∈ ["query_llm"])),
        if_neg (by decide : ¬("maybe_online_search" ∈ ["query_llm"])),
        if_neg (by decide : ¬("offer_simple_game" ∈ ["query_llm"])),
        if_pos ⟨by decide, hcl⟩]
  rw [List.find?_cons_of_neg _ (by simp [c9])]
  by_cases c10 : "keep_conversation" ∈ plan
  · rw [List.find?_cons_of_pos _ (by simp [c10])]
    dsimp only
    unfold runPlan
    rw [if_neg c1, if_neg c2, if_neg c3, if_neg c4, if_neg c5, if_neg c6, if_neg c7,
        if_neg c8, if_neg (fun hc => c9 hc.1), if_pos c10]
    rfl
  rw [List.find?_cons_of_neg _ (by simp [c10])]
  unfold runPlan
  rw [if_neg c1, if_neg c2, if_neg c3, if_neg c4, if_neg c5, if_neg c6, if_neg c7,
      if_neg c8, if_neg (fun hc => c9 hc.1), if_neg c10]
  rfl

/-! ### Claim C5 -/

/-- C5 (amended): `_run_plan` re-scans the constructed plan in its own
fixed dispatch order (`planExecutionOrder`) and the turn's response is
exactly that of the first plan action present in that order — every
lower-priority action in the same plan produces no output.  That dispatch
order, however, is not the order in which `_make_plan` appends actions
(`planConstructionOrder`): execution never tests `check_recent_emotion`
or `use_fallback_logic` and tests `describe_capabilities` before
`use_empathy_skill`, so the claim's "same fixed priority order as
construction" fails (see the counterexample). -/
theorem claim_C5_amended (collab : Collab) (s : CognitiveCycle) (input : String)
    (context : List WMEntry) (retrieved : List Episode) (goals : List String) :
    runPlan collab s (makePlan s.client goals) input context retrieved
      = match firstIn planExecutionOrder (makePlan s.client goals) with
        | some a => runPlan collab s [a] input context retrieved
        | none => runPlan collab s [] input context retrieved :=
  runPlan_firstIn collab s (makePlan s.client goals) input context retrieved
    (fun h => makePlan_query_llm s.client goals h)

/-- C5 counterexample: for the support intent (`"мне грустно"`), the
constructed plan is `[check_recent_emotion, generate_support_message,
use_empathy_skill]`; its first action in the construction append order is
`check_recent_emotion`, but execution does not return that action's
result (it has no dispatch branch at all) — the response is produced by
`generate_support_message`, the first action in the execution dispatch
order, so execution does not re-scan in the construction order. -/
theorem claim_C5_counterexample :
    makePlan false (formGoals (inferIntent "мне грустно"))
        = ["check_recent_emotion", "generate_support_message", "use_empathy_skill"]
    ∧ firstIn planConstructionOrder (makePlan false (formGoals (inferIntent "мне грустно")))
        = some "check_recent_emotion"
    ∧ firstIn planExecutionOrder (makePlan false (formGoals (inferIntent "мне грустно")))
        = some "generate_support_message"
    ∧ planResponse (runPlan collabTrivial (initCycle false)
          (makePlan false (formGoals (inferIntent "мне грустно"))) "мне грустно" [] [])
        = planResponse (runPlan collabTrivial (initCycle false)
            ["generate_support_message"] "мне грустно" [] [])
    ∧ planResponse (runPlan collabTrivial (initCycle false)
          (makePlan false (formGoals (inferIntent "мне грустно"))) "мне грустно" [] [])
        ≠ planResponse (runPlan collabTrivial (initCycle false)
            ["check_recent_emotion"] "мне грустно" [] []) := by
  refine ⟨rfl, rfl, rfl, rfl, ?_⟩
  rw [show planResponse (runPlan collabTrivial (initCycle false)
        (makePlan false (formGoals (inferIntent "мне грустно"))) "мне грустно" [] [])
      = some "Слышу, что тебе непросто. Сейчас я ощущаю радость. Хочешь рассказать подробнее?"
      from rfl,
     show planResponse (runPlan collabTrivial (initCycle false)
        ["check_recent_emotion"] "мне грустно" [] [])
      = some "Понял тебя. Можешь рассказать подробнее?" from rfl]
  decide
